import Mathlib

/-!
Shallow embedding of the agent pipeline, audit logging, command routing and
scheduler loops of `backend.py` (classes `AIAgent`, `DatabaseManager`,
`AutonomousScheduler`, `AIArmourSystem`).

Modelling conventions:
* Python strings are lists of characters (`Str`); `str.lower()` is modelled
  character-wise with `Char.toLower` (the keywords and routing words involved
  are ASCII, where this agrees with Python).
* Python dictionaries are association lists with unique first-match lookup;
  `d[k] = v` replaces the first binding of `k` in place or appends a new one,
  matching insertion-order semantics.
* Heterogeneous dictionary values are the inductive `Value`.
* A raising Python call is `Except.error`; the stage providers and the
  underlying audit-storage write are parameters that may raise, since the
  source methods contain no try/except and the control flow on a raise is
  exactly what is being verified.
-/

abbrev Str := List Char

/-- Heterogeneous values stored in the result/context dictionaries. -/
inductive Value where
  | s (v : Str)
  | b (v : Bool)
  | q (v : ℚ)
  | m (v : List (Str × Value))

abbrev Dict := List (Str × Value)

/-- First-match lookup, Python `d.get(k)`. -/
def dlookup : Dict → Str → Option Value
  | [], _ => none
  | (k, v) :: t, key => if k = key then some v else dlookup t key

/-- Python `d[k] = v`: replace the first binding in place, else append. -/
def setKey : Dict → Str → Value → Dict
  | [], k, v => [(k, v)]
  | (k0, v0) :: t, k, v =>
    if k0 = k then (k, v) :: t else (k0, v0) :: setKey t k v

/-- Character-wise model of Python `str.lower()`. -/
def pyLower (s : Str) : Str := s.map Char.toLower

/-- `n` is a prefix of `h` (Boolean). -/
def isPref : Str → Str → Bool
  | [], _ => true
  | _ :: _, [] => false
  | c :: cs, d :: ds => c = d && isPref cs ds

/-- Python `n in h`: `n` occurs contiguously inside `h`. -/
def hasSub (n : Str) : Str → Bool
  | [] => isPref n []
  | c :: t => isPref n (c :: t) || hasSub n t

/-- The fixed keyword list of `AIAgent.requires_fact_check` (line 256). -/
def fact_check_keywords : List Str :=
  ["price".toList, "invoice".toList, "payment".toList,
   "financial".toList, "contract".toList]

/-- `AIAgent.requires_fact_check` (lines 254-257):
`any(keyword in task.lower() for keyword in fact_check_keywords)`. -/
def requires_fact_check (task : Str) : Bool :=
  fact_check_keywords.any (fun k => hasSub k (pyLower task))

theorem isPref_iff (n h : Str) : isPref n h = true ↔ ∃ post, h = n ++ post := by
  induction n generalizing h with
  | nil => exact ⟨fun _ => ⟨h, by simp⟩, fun _ => rfl⟩
  | cons c cs ih =>
    cases h with
    | nil => simp [isPref]
    | cons d ds =>
      simp only [isPref, Bool.and_eq_true, decide_eq_true_eq, ih, List.cons_append,
        List.cons.injEq]
      constructor
      · rintro ⟨rfl, post, rfl⟩; exact ⟨post, rfl, rfl⟩
      · rintro ⟨post, rfl, rfl⟩; exact ⟨rfl, post, rfl⟩

theorem hasSub_iff (n h : Str) :
    hasSub n h = true ↔ ∃ pre post, h = pre ++ n ++ post := by
  induction h with
  | nil =>
    simp only [hasSub, isPref_iff]
    constructor
    · rintro ⟨post, hp⟩
      exact ⟨[], post, by simpa using hp⟩
    · rintro ⟨pre, post, hp⟩
      have h0 := hp.symm
      simp only [List.append_eq_nil] at h0
      exact ⟨post, by simp [h0.1.2, h0.2]⟩
  | cons c t ih =>
    simp only [hasSub, Bool.or_eq_true, isPref_iff, ih]
    constructor
    · rintro (⟨post, hp⟩ | ⟨pre, post, rfl⟩)
      · exact ⟨[], post, by simpa using hp⟩
      · exact ⟨c :: pre, post, rfl⟩
    · rintro ⟨pre, post, hp⟩
      cases pre with
      | nil => exact Or.inl ⟨post, by simpa using hp⟩
      | cons p ps =>
        right
        simp only [List.cons_append, List.cons.injEq] at hp
        exact ⟨ps, post, hp.2⟩

/-- The `AgentType` enum (lines 19-25). -/
inductive AgentType where
  | SALES | FINANCE | LOGISTICS | CONTRACTOR | SUPPORT | COORDINATOR
deriving DecidableEq

/-- `AgentType.value` strings. -/
def AgentType.value : AgentType → Str
  | .SALES => "sales".toList
  | .FINANCE => "finance".toList
  | .LOGISTICS => "logistics".toList
  | .CONTRACTOR => "contractor".toList
  | .SUPPORT => "support".toList
  | .COORDINATOR => "coordinator".toList

/-- The `AgentAction` dataclass (lines 70-76); `success` keeps the dynamic
`Value` produced by `final_result.get('success', False)`. -/
structure AgentAction where
  agent_type : AgentType
  action : Str
  timestamp : ℕ
  details : Dict
  success : Value

/-- The stage providers and the underlying audit-storage write, as fallible
functions. In the source the three stage methods live on `AIAgent`
(lines 223-252) and the storage write is sqlite inside
`DatabaseManager.log_action` (lines 164-179); keeping them as parameters lets
the theorems quantify over providers, and `Except.error` models a raise. -/
structure Providers where
  executor : Str → Dict → Except Str Dict
  verifier : Dict → Str → Except Str Dict
  factChecker : Dict → Except Str Dict
  storage : AgentAction → Except Str Unit

/-- Everything observable about one `AIAgent.execute_task` call: what the call
returns (or raises), the audit records actually written during it, and the
value of `self.is_active` when control leaves the method. -/
structure TaskOutcome where
  result : Except Str Dict
  log_writes : List AgentAction
  active_after : Bool

/-- The `AgentAction` built at lines 211-217 of `execute_task`:
`success=final_result.get('success', False)`, `details=final_result`. -/
def actionOf (role : AgentType) (now : ℕ) (task : Str)
    (final_result : Dict) : AgentAction :=
  ⟨role, task, now, final_result,
   (dlookup final_result "success".toList).getD (Value.b false)⟩

/-- `AIAgent.execute_task` (lines 193-221), traced faithfully: sets
`is_active := true`, runs Grok, then Claude, then the fact-check gate, builds
the `AgentAction` with `success := final_result.get('success', False)`, writes
it via `log_action`, sets `is_active := false` and returns. There is no
try/except anywhere in the method, so any raise from a stage or from the
storage write leaves the method at that point: nothing later runs. -/
def execute_task (P : Providers) (role : AgentType) (now : ℕ)
    (task : Str) (context : Dict) : TaskOutcome :=
  match P.executor task context with
  | .error e => ⟨.error e, [], true⟩
  | .ok primary_result =>
    match P.verifier primary_result task with
    | .error e => ⟨.error e, [], true⟩
    | .ok verified_result =>
      match (if requires_fact_check task then P.factChecker verified_result
             else .ok verified_result) with
      | .error e => ⟨.error e, [], true⟩
      | .ok final_result =>
        match P.storage (actionOf role now task final_result) with
        | .error e => ⟨.error e, [], true⟩
        | .ok _ => ⟨.ok final_result, [actionOf role now task final_result], false⟩

/-- `AIAgent.execute_with_grok` (lines 223-235): the simulated Grok result
map, with the context echoed under `data`. -/
def execute_with_grok (role : AgentType) (task : Str) (context : Dict) : Dict :=
  [("agent".toList, Value.s role.value),
   ("task".toList, Value.s task),
   ("result".toList, Value.s ("Grok executed: ".toList ++ task)),
   ("confidence".toList, Value.q (85 / 100)),
   ("data".toList, Value.m context)]

/-- `AIAgent.verify_with_claude` (lines 237-245): adds `verified` and
`verification_notes` to the result map. -/
def verify_with_claude (result : Dict) (original_task : Str) : Dict :=
  setKey (setKey result "verified".toList (Value.b true))
    "verification_notes".toList
    (Value.s "Output verified by Claude - no hallucinations detected".toList)

/-- `AIAgent.fact_check` (lines 247-252): adds `fact_checked`. -/
def fact_check (result : Dict) : Dict :=
  setKey result "fact_checked".toList (Value.b true)

/-- The source's own stage methods as (never-raising) providers, over an
arbitrary storage write. -/
def srcProviders (role : AgentType) (st : AgentAction → Except Str Unit) :
    Providers :=
  ⟨fun t c => .ok (execute_with_grok role t c),
   fun r t => .ok (verify_with_claude r t),
   fun r => .ok (fact_check r),
   st⟩

/-- A storage write that always succeeds. -/
def okStorage : AgentAction → Except Str Unit := fun _ => .ok ()

/-- Arbitrary pure (non-raising) stage providers over a successful storage
write, for the provider-generic theorems. -/
def pureProviders (ex : Str → Dict → Dict) (ver : Dict → Str → Dict)
    (fc : Dict → Dict) : Providers :=
  ⟨fun t c => .ok (ex t c), fun r t => .ok (ver r t), fun r => .ok (fc r),
   okStorage⟩

/-- `AIArmourSystem.manual_command` (lines 478-487): first-match
case-insensitive substring routing; `"quote"` goes to the sales agent with
the fixed description `"Generate quote"`, else `"invoice"` goes to the
finance agent with `"Handle invoice"`, else the method falls through and
returns Python `None`, modelled as `Option.none`. -/
def manual_command (now : ℕ) (command : Str) :
    Option (AgentType × TaskOutcome) :=
  if hasSub "quote".toList (pyLower command) then
    some (AgentType.SALES,
      execute_task (srcProviders AgentType.SALES okStorage) AgentType.SALES
        now "Generate quote".toList [("command".toList, Value.s command)])
  else if hasSub "invoice".toList (pyLower command) then
    some (AgentType.FINANCE,
      execute_task (srcProviders AgentType.FINANCE okStorage) AgentType.FINANCE
        now "Handle invoice".toList [("command".toList, Value.s command)])
  else none

/-- State of one scheduler loop coroutine: `sleeping r` means the loop is
inside `await asyncio.sleep(...)` and will reach its `while self.is_running`
check after `r` more one-second steps (at `r = 1` the next step is the wake:
the flag is read, and the loop either exits or runs its body — modelled as
instantaneous — and sleeps its full interval again). `exited` means the
`while` loop has terminated. -/
inductive LoopSt where
  | sleeping (r : ℕ)
  | exited
deriving DecidableEq

/-- One one-second step of a single `while self.is_running: body; sleep`
loop (the shape of `hourly_tasks`, `daily_tasks`, `continuous_monitoring`,
lines 401-439), given the current value of the shared `is_running` flag and
the loop's sleep interval in seconds. -/
def loopStep (flag : Bool) (interval : ℕ) : LoopSt → LoopSt
  | .exited => .exited
  | .sleeping r =>
    if r ≤ 1 then (if flag then .sleeping interval else .exited)
    else .sleeping (r - 1)

/-- `AutonomousScheduler` state (lines 381-439): the shared `is_running`
flag and the three concurrently sleeping loops started by `start()` via
`asyncio.gather`. -/
structure SchedState where
  is_running : Bool
  hourly : LoopSt
  daily : LoopSt
  continuous : LoopSt
deriving DecidableEq

/-- Sleep intervals from the source: 3600 s (line 418), 86400 s (line 433),
300 s (line 439). -/
def hourlyInterval : ℕ := 3600
def dailyInterval : ℕ := 86400
def continuousInterval : ℕ := 300

/-- One one-second step of the whole scheduler: each loop advances
independently against the shared flag; nothing in the loops writes the flag. -/
def schedStep (s : SchedState) : SchedState :=
  ⟨s.is_running,
   loopStep s.is_running hourlyInterval s.hourly,
   loopStep s.is_running dailyInterval s.daily,
   loopStep s.is_running continuousInterval s.continuous⟩

/-- Modelled from the spec: the repository has no `stop()` method (only
`start()` exists in `AutonomousScheduler`); per the spec's
`stop()`/`stopAutonomousMode()` contract it clears the shared `is_running`
flag and nothing else. -/
def stop (s : SchedState) : SchedState :=
  ⟨false, s.hourly, s.daily, s.continuous⟩

/-- A running loop never sleeps past its own interval: this holds from the
first sleep of each loop and is preserved by every step. -/
def loopInv (interval : ℕ) : LoopSt → Prop
  | .sleeping r => r ≤ interval
  | .exited => True

instance (interval : ℕ) (l : LoopSt) : Decidable (loopInv interval l) := by
  cases l <;> simp [loopInv] <;> infer_instance

/-- Reachable-scheduler invariant: no loop's remaining sleep exceeds its
interval. -/
def SchedInv (s : SchedState) : Prop :=
  loopInv hourlyInterval s.hourly ∧ loopInv dailyInterval s.daily ∧
    loopInv continuousInterval s.continuous

instance (s : SchedState) : Decidable (SchedInv s) := by
  unfold SchedInv; infer_instance

/-- All three loops have terminated: the spec's terminal `Idle` state. -/
def Idle (s : SchedState) : Prop :=
  s.hourly = .exited ∧ s.daily = .exited ∧ s.continuous = .exited

instance (s : SchedState) : Decidable (Idle s) := by
  unfold Idle; infer_instance

/-- The scheduler state right after `start()` has launched the three loops
and each has run its first body and begun its first sleep. -/
def startState : SchedState :=
  ⟨true, .sleeping hourlyInterval, .sleeping dailyInterval,
   .sleeping continuousInterval⟩

/-- A scheduler-loop body abstracted as one fallible iteration (the awaited
agent calls of lines 404-416 / 426-431); `loopSteps flag body i fuel` runs
the `while self.is_running` loop from iteration `i` exactly as written: check
the flag, run the body — with no try/except around it, so a raise leaves the
loop — then continue. `fuel` bounds how many iterations we observe. -/
inductive LoopRun where
  | running
  | stopped
  | crashed (e : Str)
deriving DecidableEq

def loopSteps (flag : ℕ → Bool) (body : ℕ → Except Str Unit) :
    ℕ → ℕ → LoopRun
  | _, 0 => .running
  | i, fuel + 1 =>
    if flag i then
      match body i with
      | .error e => .crashed e
      | .ok _ => loopSteps flag body (i + 1) fuel
    else .stopped

/-- The final result map of one non-raising pipeline run (lines 197-208):
Grok-style executor, then verifier, then the fact-check gate. -/
def pipelineResult (ex : Str → Dict → Dict) (ver : Dict → Str → Dict)
    (fc : Dict → Dict) (task : Str) (context : Dict) : Dict :=
  if requires_fact_check task then fc (ver (ex task context) task)
  else ver (ex task context) task

/-- With non-raising providers and a successful storage write, `execute_task`
returns the pipeline's final map, writes exactly its one `AgentAction`, and
clears `is_active`. -/
theorem execute_task_pure (ex : Str → Dict → Dict) (ver : Dict → Str → Dict)
    (fc : Dict → Dict) (role : AgentType) (now : ℕ) (task : Str)
    (context : Dict) :
    execute_task (pureProviders ex ver fc) role now task context =
      ⟨.ok (pipelineResult ex ver fc task context),
       [actionOf role now task (pipelineResult ex ver fc task context)],
       false⟩ := by
  unfold execute_task pureProviders pipelineResult okStorage
  cases h : requires_fact_check task <;> simp [h]

/-- The same, for the source's own stage methods. -/
theorem execute_task_src (role : AgentType) (now : ℕ) (task : Str)
    (context : Dict) :
    execute_task (srcProviders role okStorage) role now task context =
      ⟨.ok (pipelineResult (execute_with_grok role) verify_with_claude
              fact_check task context),
       [actionOf role now task
          (pipelineResult (execute_with_grok role) verify_with_claude
             fact_check task context)],
       false⟩ := by
  unfold execute_task srcProviders pipelineResult okStorage
  cases h : requires_fact_check task <;> simp [h]

/-- Exhaustive shape of any `execute_task` call: either some stage or the
storage write raised — then the exception is the returned outcome, nothing was
logged and `is_active` is still true — or everything succeeded and exactly the
one action record was written with `is_active` cleared. -/
theorem execute_task_shape (P : Providers) (role : AgentType) (now : ℕ)
    (task : Str) (context : Dict) :
    (∃ e, execute_task P role now task context = ⟨.error e, [], true⟩) ∨
    (∃ final, execute_task P role now task context =
        ⟨.ok final, [actionOf role now task final], false⟩) := by
  unfold execute_task
  cases P.executor task context with
  | error e => exact Or.inl ⟨e, rfl⟩
  | ok primary =>
    dsimp only
    cases P.verifier primary task with
    | error e => exact Or.inl ⟨e, rfl⟩
    | ok verified =>
      dsimp only
      cases hg : (if requires_fact_check task then P.factChecker verified
                  else Except.ok verified) with
      | error e => exact Or.inl ⟨e, rfl⟩
      | ok final =>
        dsimp only
        cases P.storage (actionOf role now task final) with
        | error e => exact Or.inl ⟨e, rfl⟩
        | ok u => exact Or.inr ⟨final, rfl⟩

/-- Stage providers whose primary executor raises, for exercising the
raising path of `execute_task`; verifier and fact-checker are the source's
own methods and the storage write succeeds. -/
def raisingExecutorProviders : Providers :=
  ⟨fun _ _ => .error "grok api failure".toList,
   fun r t => .ok (verify_with_claude r t),
   fun r => .ok (fact_check r),
   okStorage⟩

/-- C1 counterexample: with an executor that raises, `execute_task` on a
concrete task returns the raised exception to its caller (not a
`success: false` StageResult), writes no audit record, and leaves
`is_active` true — the claim fails on all three counts, because the method
body has no try/except. -/
theorem C1_counterexample :
    execute_task raisingExecutorProviders AgentType.LOGISTICS 0
        "Check inventory levels".toList [] =
      ⟨.error "grok api failure".toList, [], true⟩ := rfl

/-- C1 (amended): `execute_task` does not catch stage-provider (or storage)
exceptions. Whenever the call does not return normally the exception
propagates to the caller, no audit record is written and `is_active` is left
true; only when every stage and the audit write succeed is exactly one record
written and `is_active` false on exit. -/
theorem C1_exception_propagation (P : Providers) (role : AgentType) (now : ℕ)
    (task : Str) (context : Dict) :
    (∀ e, (execute_task P role now task context).result = .error e →
      (execute_task P role now task context).log_writes = [] ∧
        (execute_task P role now task context).active_after = true) ∧
    (∀ final, (execute_task P role now task context).result = .ok final →
      (execute_task P role now task context).log_writes =
          [actionOf role now task final] ∧
        (execute_task P role now task context).active_after = false) := by
  rcases execute_task_shape P role now task context with ⟨e, he⟩ | ⟨f, hf⟩
  · rw [he]
    refine ⟨fun e0 _ => ⟨rfl, rfl⟩, fun final h => ?_⟩
    exact Except.noConfusion h
  · rw [hf]
    refine ⟨fun e0 h => Except.noConfusion h, fun final h => ?_⟩
    injection h with h
    subst h
    exact ⟨rfl, rfl⟩

/-- C9 counterexample: with the source's own stage methods but an
audit-storage write that raises, `execute_task` on a concrete task hands the
storage exception to its caller instead of the pipeline's final StageResult,
because `DatabaseManager.log_action` and `execute_task` contain no
try/except and no observability channel exists in the code. -/
theorem C9_counterexample :
    execute_task
        (srcProviders AgentType.FINANCE (fun _ => .error "database is locked".toList))
        AgentType.FINANCE 0 "Generate financial report".toList [] =
      ⟨.error "database is locked".toList, [], true⟩ := rfl

/-- C9 (amended): a failure of the underlying audit-storage write propagates
through `execute_task` to the caller for every choice of (non-raising) stage
providers, task and context: the caller receives the storage exception, not
the final StageResult, nothing is logged, and `is_active` stays true. -/
theorem C9_storage_failure_propagates (ex : Str → Dict → Dict)
    (ver : Dict → Str → Dict) (fc : Dict → Dict) (role : AgentType) (now : ℕ)
    (task : Str) (context : Dict) (e : Str) :
    execute_task
        ⟨fun t c => .ok (ex t c), fun r t => .ok (ver r t),
         fun r => .ok (fc r), fun _ => .error e⟩
        role now task context =
      ⟨.error e, [], true⟩ := by
  unfold execute_task
  cases h : requires_fact_check task <;> simp [h]

/-- C2 counterexample: the claim's parenthetical "a description containing
`pricing` matches `price`" is false on the code: `price` is not a contiguous
substring of `pricing`, so a task description containing `pricing` (and no
actual keyword) is not fact-checked. -/
theorem C2_counterexample :
    requires_fact_check "Update the pricing".toList = false ∧
      hasSub "price".toList (pyLower "Update the pricing".toList) = false := by
  constructor <;> decide

/-- C2 (amended): `requires_fact_check` returns true exactly when the
lowercased description contains one of the five fixed keywords as a
contiguous substring (not whole-word — "prices" matches "price" — but
"pricing" does not contain "price"); on every other description it returns
false. -/
theorem C2_requires_fact_check_iff (task : Str) :
    requires_fact_check task = true ↔
      ∃ k, k ∈ fact_check_keywords ∧
        ∃ pre post, pyLower task = pre ++ k ++ post := by
  unfold requires_fact_check
  rw [List.any_eq_true]
  constructor
  · rintro ⟨k, hk, hs⟩
    exact ⟨k, hk, (hasSub_iff k (pyLower task)).mp hs⟩
  · rintro ⟨k, hk, hs⟩
    exact ⟨k, hk, (hasSub_iff k (pyLower task)).mpr hs⟩

/-- C7 counterexample: on a concrete task the Grok stage's result map has no
`success` field at all — `execute_with_grok` builds only `agent`, `task`,
`result`, `confidence` and `data` — so the claimed `success` field is absent. -/
theorem C7_counterexample :
    dlookup (execute_with_grok AgentType.SALES "Follow up with warm leads".toList [])
        "success".toList = none := rfl

/-- C7 (amended): for every role, task and context, `execute_with_grok`
returns a map that carries `confidence` (0.85) and an echo of the supplied
context under `data` (plus `agent`, `task` and `result`), but no `success`
field. -/
theorem C7_execute_with_grok_fields (role : AgentType) (task : Str)
    (context : Dict) :
    dlookup (execute_with_grok role task context) "confidence".toList =
        some (Value.q (85 / 100)) ∧
      dlookup (execute_with_grok role task context) "data".toList =
        some (Value.m context) ∧
      dlookup (execute_with_grok role task context) "task".toList =
        some (Value.s task) ∧
      dlookup (execute_with_grok role task context) "success".toList = none := by
  exact ⟨rfl, rfl, rfl, rfl⟩

/-- C3: every non-raising `execute_task` call performs exactly one audit
write — with no retry and unconditionally, whatever `success` value (if any)
the providers put in the final map — and the written record carries the final
map itself as `details` and, as `success`, exactly what the code reads from
it: `final_result.get('success', False)`; in particular whenever the final
StageResult has a `success` field the record's `success` equals it. -/
theorem C3_single_audit_write (ex : Str → Dict → Dict)
    (ver : Dict → Str → Dict) (fc : Dict → Dict) (role : AgentType) (now : ℕ)
    (task : Str) (context : Dict) :
    ∃ final rec,
      execute_task (pureProviders ex ver fc) role now task context =
          ⟨.ok final, [rec], false⟩ ∧
        rec.details = final ∧
        rec.success = (dlookup final "success".toList).getD (Value.b false) ∧
        ∀ v, dlookup final "success".toList = some v → rec.success = v := by
  refine ⟨pipelineResult ex ver fc task context,
    actionOf role now task (pipelineResult ex ver fc task context),
    execute_task_pure ex ver fc role now task context, rfl, rfl, ?_⟩
  intro v hv
  show (dlookup (pipelineResult ex ver fc task context)
      "success".toList).getD (Value.b false) = v
  rw [hv]
  rfl

/-- `d2` contains every binding of `d1` (field-wise superset under
first-match lookup). -/
def Subdict (d1 d2 : Dict) : Prop :=
  ∀ k v, dlookup d1 k = some v → dlookup d2 k = some v

/-- C8: for any executor, and any verifier and fact-checker that only add
fields (each output map is a field-wise superset of its input map), the
StageResult returned by a non-raising `execute_task` call is a field-wise
superset of the map the executor alone produced. -/
theorem C8_monotonic_augmentation (ex : Str → Dict → Dict)
    (ver : Dict → Str → Dict) (fc : Dict → Dict) (role : AgentType) (now : ℕ)
    (task : Str) (context : Dict)
    (hver : ∀ d t, Subdict d (ver d t)) (hfc : ∀ d, Subdict d (fc d)) :
    ∃ final,
      (execute_task (pureProviders ex ver fc) role now task context).result =
          .ok final ∧
        Subdict (ex task context) final := by
  refine ⟨pipelineResult ex ver fc task context, ?_, ?_⟩
  · rw [execute_task_pure ex ver fc role now task context]
  · unfold pipelineResult
    cases h : requires_fact_check task with
    | false =>
      simp only [Bool.false_eq_true, if_false]
      exact hver (ex task context) task
    | true =>
      simp only [if_true]
      intro k v hk
      exact hfc (ver (ex task context) task) k v
        (hver (ex task context) task k v hk)

/-- C8 witness: the superset hypotheses instantiated with the identity-like
verifier and fact-checker at a concrete task, discharging both hypotheses. -/
theorem C8_witness :
    ∃ final,
      (execute_task
          (pureProviders (fun _ _ => [("ok".toList, Value.b true)])
            (fun d _ => d) (fun d => d))
          AgentType.SALES 0 "Follow up with warm leads".toList []).result =
        .ok final ∧
        Subdict [("ok".toList, Value.b true)] final :=
  C8_monotonic_augmentation (fun _ _ => [("ok".toList, Value.b true)])
    (fun d _ => d) (fun d => d) AgentType.SALES 0
    "Follow up with warm leads".toList []
    (fun _ _ _ _ h => h) (fun _ _ _ h => h)

/-- C4: `manual_command` routes by first-match case-insensitive substring on
the ordered rule list (`quote` → sales before `invoice` → finance): a command
containing `quote` always goes to the sales agent's `execute_task` (even if it
also contains `invoice`), otherwise one containing `invoice` goes to the
finance agent's `execute_task`, and a command matching neither returns the
explicit unrouted outcome (Python `None`) rather than raising. -/
theorem C4_manual_command_routing (cmd : Str) (now : ℕ) :
    (hasSub "quote".toList (pyLower cmd) = true →
      manual_command now cmd =
        some (AgentType.SALES,
          execute_task (srcProviders AgentType.SALES okStorage)
            AgentType.SALES now "Generate quote".toList
            [("command".toList, Value.s cmd)])) ∧
    (hasSub "quote".toList (pyLower cmd) = false →
      hasSub "invoice".toList (pyLower cmd) = true →
      manual_command now cmd =
        some (AgentType.FINANCE,
          execute_task (srcProviders AgentType.FINANCE okStorage)
            AgentType.FINANCE now "Handle invoice".toList
            [("command".toList, Value.s cmd)])) ∧
    (hasSub "quote".toList (pyLower cmd) = false →
      hasSub "invoice".toList (pyLower cmd) = false →
      manual_command now cmd = none) := by
  refine ⟨fun hq => ?_, fun hq hi => ?_, fun hq hi => ?_⟩
  · unfold manual_command
    rw [hq]
    simp
  · unfold manual_command
    rw [hq, hi]
    simp
  · unfold manual_command
    rw [hq, hi]
    simp

/-- C4 witness: the spec's own example — `"please send INVOICE now"` routes to
the finance agent regardless of case, with both routing hypotheses discharged
by computation. -/
theorem C4_witness :
    manual_command 0 "please send INVOICE now".toList =
      some (AgentType.FINANCE,
        execute_task (srcProviders AgentType.FINANCE okStorage)
          AgentType.FINANCE 0 "Handle invoice".toList
          [("command".toList, Value.s "please send INVOICE now".toList)]) :=
  (C4_manual_command_routing "please send INVOICE now".toList 0).2.1
    (by decide) (by decide)

/-- C10: `manual_command` substitutes a fixed task description before
delegating — every quote-routed command runs with description
`"Generate quote"` and every invoice-routed command with `"Handle invoice"`,
the original command text appearing only under the `command` key of the
context (echoed under `data`). Hence the fact-check gate is false for every
quote-routed command and true for every invoice-routed command, regardless of
the rest of the command text: the quote route's final map never has a
`fact_checked` field and the invoice route's always has `fact_checked: true`. -/
theorem C10_fixed_descriptions (cmd : Str) (now : ℕ) :
    (hasSub "quote".toList (pyLower cmd) = true →
      requires_fact_check "Generate quote".toList = false ∧
      ∃ d, manual_command now cmd =
          some (AgentType.SALES,
            ⟨.ok d, [actionOf AgentType.SALES now "Generate quote".toList d],
             false⟩) ∧
        dlookup d "task".toList = some (Value.s "Generate quote".toList) ∧
        dlookup d "data".toList =
          some (Value.m [("command".toList, Value.s cmd)]) ∧
        dlookup d "fact_checked".toList = none) ∧
    (hasSub "quote".toList (pyLower cmd) = false →
      hasSub "invoice".toList (pyLower cmd) = true →
      requires_fact_check "Handle invoice".toList = true ∧
      ∃ d, manual_command now cmd =
          some (AgentType.FINANCE,
            ⟨.ok d, [actionOf AgentType.FINANCE now "Handle invoice".toList d],
             false⟩) ∧
        dlookup d "task".toList = some (Value.s "Handle invoice".toList) ∧
        dlookup d "data".toList =
          some (Value.m [("command".toList, Value.s cmd)]) ∧
        dlookup d "fact_checked".toList = some (Value.b true)) := by
  constructor
  · intro hq
    refine ⟨by decide,
      pipelineResult (execute_with_grok AgentType.SALES) verify_with_claude
        fact_check "Generate quote".toList [("command".toList, Value.s cmd)],
      ?_, rfl, rfl, rfl⟩
    unfold manual_command
    rw [hq]
    simp only [if_true]
    rw [execute_task_src]
  · intro hq hi
    refine ⟨by decide,
      pipelineResult (execute_with_grok AgentType.FINANCE) verify_with_claude
        fact_check "Handle invoice".toList [("command".toList, Value.s cmd)],
      ?_, rfl, rfl, rfl⟩
    unfold manual_command
    rw [hq, hi]
    simp only [Bool.false_eq_true, if_false, if_true]
    rw [execute_task_src]

/-- C10 witness: a quote command that itself mentions `price` still runs as
`"Generate quote"` and is not fact-checked. -/
theorem C10_witness :
    requires_fact_check "Generate quote".toList = false ∧
    ∃ d, manual_command 0 "quote our best price".toList =
        some (AgentType.SALES,
          ⟨.ok d, [actionOf AgentType.SALES 0 "Generate quote".toList d],
           false⟩) ∧
      dlookup d "task".toList = some (Value.s "Generate quote".toList) ∧
      dlookup d "data".toList =
        some (Value.m [("command".toList,
          Value.s "quote our best price".toList)]) ∧
      dlookup d "fact_checked".toList = none :=
  (C10_fixed_descriptions "quote our best price".toList 0).1 (by decide)

theorem loopStep_iterate_exited (I n : ℕ) :
    (loopStep false I)^[n] .exited = .exited := by
  induction n with
  | zero => rfl
  | succ n ih => rw [Function.iterate_succ_apply]; exact ih

theorem loopStep_sleeping_exits (I : ℕ) :
    ∀ n r, r ≤ n → 1 ≤ n → (loopStep false I)^[n] (.sleeping r) = .exited := by
  intro n
  induction n with
  | zero => intro r _ h1; omega
  | succ n ih =>
    intro r hr _
    rw [Function.iterate_succ_apply]
    by_cases h : r ≤ 1
    · have hstep : loopStep false I (.sleeping r) = .exited := by
        simp only [loopStep]
        rw [if_pos h]
        rfl
      rw [hstep]
      exact loopStep_iterate_exited I n
    · have hstep : loopStep false I (.sleeping r) = .sleeping (r - 1) := by
        simp only [loopStep]
        rw [if_neg h]
      rw [hstep]
      exact ih (r - 1) (by omega) (by omega)

theorem loop_exits (I n : ℕ) (l : LoopSt) (hInv : loopInv I l)
    (hIn : I ≤ n) (h1 : 1 ≤ n) : (loopStep false I)^[n] l = .exited := by
  cases l with
  | exited => exact loopStep_iterate_exited I n
  | sleeping r =>
    exact loopStep_sleeping_exits I n r (le_trans hInv hIn) h1

theorem schedStep_iterate_stopped (n : ℕ) (a b c : LoopSt) :
    schedStep^[n] ⟨false, a, b, c⟩ =
      ⟨false, (loopStep false hourlyInterval)^[n] a,
       (loopStep false dailyInterval)^[n] b,
       (loopStep false continuousInterval)^[n] c⟩ := by
  induction n generalizing a b c with
  | zero => rfl
  | succ n ih =>
    rw [Function.iterate_succ_apply, Function.iterate_succ_apply,
      Function.iterate_succ_apply, Function.iterate_succ_apply]
    exact ih _ _ _

theorem Idle_of_components (f : Bool) (a b c : LoopSt)
    (ha : a = .exited) (hb : b = .exited) (hc : c = .exited) :
    Idle ⟨f, a, b, c⟩ := by
  subst ha hb hc
  exact ⟨rfl, rfl, rfl⟩

/-- C5: once the running flag is cleared, a loop mid-sleep is not interrupted
early (with the flag false it still just counts its sleep down), each loop
exits only at its next wake boundary, and — since every reachable loop state
sleeps at most its own interval, and the slowest interval is the daily
86400 s — after one full interval of the slowest loop every loop has
terminated: the scheduler is Idle. `stop` itself is modelled from the spec
(the source has no stop method); the loops are the source's. -/
theorem C5_stop_terminates (s : SchedState) (hInv : SchedInv s) :
    (∀ interval r, 2 ≤ r →
      loopStep false interval (.sleeping r) = .sleeping (r - 1)) ∧
    Idle (schedStep^[dailyInterval] (stop s)) := by
  constructor
  · intro interval r hr
    simp only [loopStep]
    rw [if_neg (show ¬ r ≤ 1 by omega)]
  · obtain ⟨h1, h2, h3⟩ := hInv
    obtain ⟨f, a, b, c⟩ := s
    show Idle (schedStep^[dailyInterval] ⟨false, a, b, c⟩)
    rw [schedStep_iterate_stopped]
    exact Idle_of_components false _ _ _
      (loop_exits hourlyInterval dailyInterval a h1
        (by unfold hourlyInterval dailyInterval; omega)
        (by unfold dailyInterval; omega))
      (loop_exits dailyInterval dailyInterval b h2 (le_refl _)
        (by unfold dailyInterval; omega))
      (loop_exits continuousInterval dailyInterval c h3
        (by unfold continuousInterval dailyInterval; omega)
        (by unfold dailyInterval; omega))

/-- C5 witness: the invariant holds at the state where all three loops have
just begun their first sleep, and from there stop-then-wait-86400s reaches
Idle. -/
theorem C5_witness :
    (∀ interval r, 2 ≤ r →
      loopStep false interval (.sleeping r) = .sleeping (r - 1)) ∧
    Idle (schedStep^[dailyInterval] (stop startState)) :=
  C5_stop_terminates startState (by decide)

/-- C6 counterexample: a loop whose flag stays true but whose first iteration
raises terminates immediately with that exception — it does not continue to
the next tick, because the loop bodies contain no try/except. -/
theorem C6_counterexample :
    loopSteps (fun _ => true) (fun _ => .error "agent call failed".toList)
        0 5 =
      .crashed "agent call failed".toList := rfl

/-- C6 (amended): an exception raised during a single scheduler loop
iteration is not caught: it propagates out of the `while self.is_running`
loop and terminates that loop at that iteration, so a loop stops either via
the flag or via an uncaught iteration exception. -/
theorem C6_iteration_exception_terminates (flag : ℕ → Bool)
    (body : ℕ → Except Str Unit) (i fuel : ℕ) (e : Str)
    (hflag : flag i = true) (hbody : body i = .error e) :
    loopSteps flag body i (fuel + 1) = .crashed e := by
  unfold loopSteps
  rw [hflag, hbody]
  rfl

/-- C6 witness: a loop whose second-and-later iterations would succeed still
crashes at its raising first iteration, with both hypotheses discharged by
computation. -/
theorem C6_witness :
    loopSteps (fun _ => true)
        (fun n => if n = 0 then .error "inventory check failed".toList
                  else .ok ())
        0 (7 + 1) =
      .crashed "inventory check failed".toList :=
  C6_iteration_exception_terminates (fun _ => true)
    (fun n => if n = 0 then .error "inventory check failed".toList
              else .ok ())
    0 7 "inventory check failed".toList rfl rfl
